import Mathlib

/-!
Shallow embedding of `src/generate.py` (the GenR8 password generator).

The core functions of the Python module are `generate_password`,
`generate_from_template`, `evaluate_password_strength` and
`is_valid_template`.  Randomness (Python's `random` module, an external
library) is modeled as an abstract `RandomSource` providing the three
operations the code calls — `random.choices(pop, k)`, `random.choice(seq)`
and `random.shuffle(xs)` — together with the contracts those library
functions satisfy on the nonempty populations this program passes them:
`choices` returns `k` elements of the population, `choice` returns an
element of the sequence, and `shuffle` returns a permutation of the list.
Passwords are `List Char`; the final Python `''.join(password)` is the
string of that character list.  Python's float division
`unique_chars / length * 20` truncated by `int(...)` is modeled as the
exact floored rational `unique_chars * 20 / length` (natural division);
the `ZeroDivisionError` Python raises when `length == 0` is modeled by
returning `none`.
-/

namespace GenR8

/-- Python `string.ascii_uppercase`. -/
def ascii_uppercase : List Char := "ABCDEFGHIJKLMNOPQRSTUVWXYZ".toList

/-- Python `string.ascii_lowercase`. -/
def ascii_lowercase : List Char := "abcdefghijklmnopqrstuvwxyz".toList

/-- Python `string.digits`. -/
def digits : List Char := "0123456789".toList

/-- The Composer's special alphabet, `allowed_specials = "!@#$%&_-?"`
(src/generate.py line 28), also used at lines 38, 72 and 73. -/
def allowed_specials : List Char := "!@#$%&_-?".toList

/-- The special-character set the Evaluator recognizes
(src/generate.py line 109): membership test of the string
`"!@#\x24%^&*()_+-=[]\x7b\x7d|;:,.<>?/"`. -/
def evaluator_specials : List Char := "!@#$%^&*()_+-=[]\x7b\x7d|;:,.<>?/".toList

/-- Abstract model of the external `random` module.  Each field is one of
the three library calls the program makes, and each contract field is the
documented behavior of that call on a nonempty population (the program
never passes an empty one): `random.choices(pop, k=k)` draws `k` elements
of `pop` with replacement, `random.choice(seq)` draws one element of
`seq`, and `random.shuffle(xs)` permutes `xs` in place. -/
structure RandomSource where
  choices : List Char → Nat → List Char
  choice : List Char → Char
  shuffle : List Char → List Char
  choices_length : ∀ pop k, pop ≠ [] → (choices pop k).length = k
  choices_mem : ∀ pop k, pop ≠ [] → ∀ c ∈ choices pop k, c ∈ pop
  choice_mem : ∀ seq, seq ≠ [] → choice seq ∈ seq
  shuffle_perm : ∀ xs, List.Perm (shuffle xs) xs

/-- A concrete deterministic `RandomSource` (always draws the first element
of the population and shuffles by the identity permutation), used to
evaluate the generator on concrete inputs. -/
def defaultSource : RandomSource where
  choices pop k := List.replicate k (pop.headD 'a')
  choice seq := seq.headD 'a'
  shuffle xs := xs
  choices_length := by
    intro pop k _
    simp
  choices_mem := by
    intro pop k hpop c hc
    have hc' : c = pop.headD 'a' := List.eq_of_mem_replicate hc
    cases pop with
    | nil => exact absurd rfl hpop
    | cons x xs => simp [hc']
  choice_mem := by
    intro seq hseq
    cases seq with
    | nil => exact absurd rfl hseq
    | cons x xs => simp
  shuffle_perm := fun xs => List.Perm.refl xs

/-- Length coercion of `generate_password` (src/generate.py lines 15–16):
`if length < 12: length = 12`. -/
def enforced_length (length : Int) : Int :=
  if length < 12 then 12 else length

/-- Combined alphabet of `generate_password` (src/generate.py lines 19–33):
concatenate the enabled classes' alphabets in the order uppercase,
lowercase, digits, specials; fall back to `string.ascii_lowercase` when
the result is empty. -/
def character_pool (use_uppercase use_lowercase use_numbers use_special : Bool) :
    List Char :=
  let pool :=
    (if use_uppercase then ascii_uppercase else []) ++
    (if use_lowercase then ascii_lowercase else []) ++
    (if use_numbers then digits else []) ++
    (if use_special then allowed_specials else [])
  if pool = [] then ascii_lowercase else pool

/-- Reserved guaranteed characters of `generate_password`
(src/generate.py lines 36–44): 2 specials, then 4 uppercase, then 4
lowercase, then 2 digits, each segment present exactly when its class flag
is enabled and drawn by `random.choices` from that class's alphabet. -/
def reserved_chars (rng : RandomSource)
    (use_uppercase use_lowercase use_numbers use_special : Bool) : List Char :=
  (if use_special then rng.choices allowed_specials 2 else []) ++
  (if use_uppercase then rng.choices ascii_uppercase 4 else []) ++
  (if use_lowercase then rng.choices ascii_lowercase 4 else []) ++
  (if use_numbers then rng.choices digits 2 else [])

/-- The password list of `generate_password` just before the final
shuffle (src/generate.py lines 36–49): the reserved characters, extended
by `remaining_length = length - len(password)` draws from the combined
pool when that count is positive. -/
def fill_chars (rng : RandomSource) (length : Int)
    (use_uppercase use_lowercase use_numbers use_special : Bool) : List Char :=
  let password := reserved_chars rng use_uppercase use_lowercase use_numbers use_special
  let remaining_length : Int :=
    enforced_length length - password.length
  if 0 < remaining_length then
    password ++ rng.choices
      (character_pool use_uppercase use_lowercase use_numbers use_special)
      remaining_length.toNat
  else
    password

/-- Embedding of `generate_password` (src/generate.py lines 13–53): floor
the length to 12, build the pool, reserve the guaranteed characters, fill
up to the length, and shuffle.  The Python function returns
`''.join(password)`; here the password is the underlying character list. -/
def generate_password (rng : RandomSource) (length : Int)
    (use_uppercase use_lowercase use_numbers use_special : Bool) : List Char :=
  rng.shuffle (fill_chars rng length use_uppercase use_lowercase use_numbers use_special)

/-- The `pattern_map` dict of `generate_from_template`
(src/generate.py lines 68–74), as a partial lookup: directives map to
their alphabets, any other character to `none`. -/
def pattern_map (c : Char) : Option (List Char) :=
  if c = 'U' then some ascii_uppercase
  else if c = 'L' then some ascii_lowercase
  else if c = 'D' then some digits
  else if c = 'S' then some allowed_specials
  else if c = 'X' then
    some (ascii_uppercase ++ ascii_lowercase ++ digits ++ allowed_specials)
  else none

/-- Embedding of `generate_from_template` (src/generate.py lines 55–83):
one output character per template character, `random.choice` from the
mapped alphabet for a directive, literal passthrough otherwise. -/
def generate_from_template (rng : RandomSource) (template : List Char) : List Char :=
  template.map (fun char =>
    match pattern_map char with
    | some pool => rng.choice pool
    | none => char)

/-- Embedding of `is_valid_template` (src/generate.py lines 395–409). -/
def is_valid_template (template : List Char) : Bool :=
  if template.length < 12 then false
  else
    let has_upper := template.contains 'U'
    let has_lower := template.contains 'L'
    let has_digit := template.contains 'D'
    let has_special := template.contains 'S'
    let x_count := template.count 'X'
    let required_count :=
      4 - ((if has_upper then 1 else 0) + (if has_lower then 1 else 0) +
           (if has_digit then 1 else 0) + (if has_special then 1 else 0))
    decide (required_count ≤ x_count)

/-- Embedding of `evaluate_password_strength` (src/generate.py
lines 85–143).  Returns `none` exactly when the Python code raises
`ZeroDivisionError` (empty password: `unique_chars / length` with
`length == 0` at line 125), otherwise `some (score, strength, feedback)`.
Python's `str.isupper`/`islower`/`isdigit` are modeled on the ASCII range
this program uses via `Char.isUpper`/`Char.isLower`/`Char.isDigit`, and
`len(set(password))` is `password.dedup.length`. -/
def evaluate_password_strength (password : List Char) :
    Option (Nat × String × List String) :=
  let length := password.length
  let score : Nat := 0
  let feedback : List String := []
  let (score, feedback) :=
    if 16 ≤ length then (score + 40, feedback ++ ["Good length"])
    else if 12 ≤ length then (score + 30, feedback ++ ["Acceptable length"])
    else (score + 15, feedback ++ ["Too short"])
  let has_upper := password.any Char.isUpper
  let has_lower := password.any Char.isLower
  let has_digit := password.any Char.isDigit
  let has_special := password.any (fun c => evaluator_specials.contains c)
  let char_types :=
    (if has_upper then 1 else 0) + (if has_lower then 1 else 0) +
    (if has_digit then 1 else 0) + (if has_special then 1 else 0)
  let score := score + char_types * 10
  let feedback := feedback ++ (if !has_upper then ["Add uppercase letters"] else [])
  let feedback := feedback ++ (if !has_lower then ["Add lowercase letters"] else [])
  let feedback := feedback ++ (if !has_digit then ["Add numbers"] else [])
  let feedback := feedback ++ (if !has_special then ["Add special characters"] else [])
  let unique_chars := password.dedup.length
  if length = 0 then
    none
  else
    let diversity_score := min 20 (unique_chars * 20 / length)
    let score := score + diversity_score
    let feedback :=
      if 2 * unique_chars < length then
        feedback ++ ["Add more variety of characters"]
      else feedback
    let strength :=
      if 90 ≤ score then "Very Strong"
      else if 70 ≤ score then "Strong"
      else if 50 ≤ score then "Moderate"
      else if 30 ≤ score then "Weak"
      else "Very Weak"
    some (score, strength, feedback)

lemma allowed_specials_ne_nil : allowed_specials ≠ [] := by decide

lemma ascii_uppercase_ne_nil : ascii_uppercase ≠ [] := by decide

lemma ascii_lowercase_ne_nil : ascii_lowercase ≠ [] := by decide

lemma digits_ne_nil : digits ≠ [] := by decide

lemma character_pool_ne_nil (u l n s : Bool) : character_pool u l n s ≠ [] := by
  cases u <;> cases l <;> cases n <;> cases s <;> decide

lemma reserved_chars_length (rng : RandomSource) (u l n s : Bool) :
    (reserved_chars rng u l n s).length =
      (if s then 2 else 0) + (if u then 4 else 0) +
      (if l then 4 else 0) + (if n then 2 else 0) := by
  have h1 := rng.choices_length allowed_specials 2 allowed_specials_ne_nil
  have h2 := rng.choices_length ascii_uppercase 4 ascii_uppercase_ne_nil
  have h3 := rng.choices_length ascii_lowercase 4 ascii_lowercase_ne_nil
  have h4 := rng.choices_length digits 2 digits_ne_nil
  cases s <;> cases u <;> cases l <;> cases n <;>
    simp [reserved_chars, h1, h2, h3, h4]

lemma reserved_chars_length_le (rng : RandomSource) (u l n s : Bool) :
    (reserved_chars rng u l n s).length ≤ 12 := by
  rw [reserved_chars_length]
  cases s <;> cases u <;> cases l <;> cases n <;> decide

lemma enforced_length_ge (length : Int) : 12 ≤ enforced_length length := by
  unfold enforced_length
  split <;> omega

lemma fill_chars_length (rng : RandomSource) (length : Int) (u l n s : Bool) :
    (fill_chars rng length u l n s).length = (enforced_length length).toNat := by
  have hR := reserved_chars_length_le rng u l n s
  have hE := enforced_length_ge length
  simp only [fill_chars]
  split
  · rw [List.length_append,
      rng.choices_length _ _ (character_pool_ne_nil u l n s)]
    omega
  · omega

lemma generate_password_length (rng : RandomSource) (length : Int) (u l n s : Bool) :
    (generate_password rng length u l n s).length = (enforced_length length).toNat := by
  unfold generate_password
  rw [(rng.shuffle_perm _).length_eq, fill_chars_length]

/-- C3: for every input to `generate_password`, including requested
lengths below 12, zero or negative, the returned password has length at
least 12. -/
theorem generate_password_length_ge_twelve (rng : RandomSource) (length : Int)
    (use_uppercase use_lowercase use_numbers use_special : Bool) :
    12 ≤ (generate_password rng length
            use_uppercase use_lowercase use_numbers use_special).length := by
  rw [generate_password_length]
  have hE := enforced_length_ge length
  omega

/-- C10: the returned password's length is exactly `max 12 length`: the
reserved minimums sum to at most 12 and the length is first floored to 12,
so the remaining fill count is never negative and the output never exceeds
the floored request. -/
theorem generate_password_length_exact (rng : RandomSource) (length : Int)
    (use_uppercase use_lowercase use_numbers use_special : Bool) :
    ((generate_password rng length
        use_uppercase use_lowercase use_numbers use_special).length : Int) =
      max 12 length := by
  rw [generate_password_length]
  have hmax : enforced_length length = max 12 length := by
    unfold enforced_length
    rcases le_total 12 length with h | h
    · rw [if_neg (by omega), max_eq_right h]
    · rcases lt_or_ge length 12 with h' | h'
      · rw [if_pos h', max_eq_left (le_of_lt h')]
      · rw [if_neg (by omega), max_eq_right h']
  rw [hmax]
  have h12 : (12 : Int) ≤ max 12 length := le_max_left _ _
  omega

lemma countP_choices_self (rng : RandomSource) (pop : List Char) (k : Nat)
    (hpop : pop ≠ []) :
    List.countP (fun c => decide (c ∈ pop)) (rng.choices pop k) = k := by
  have hall : List.countP (fun c => decide (c ∈ pop)) (rng.choices pop k) =
      (rng.choices pop k).length :=
    List.countP_eq_length.mpr (fun a ha => decide_eq_true (rng.choices_mem pop k hpop a ha))
  rw [hall, rng.choices_length pop k hpop]

lemma countP_reserved_le_fill (rng : RandomSource) (length : Int) (u l n s : Bool)
    (p : Char → Bool) :
    List.countP p (reserved_chars rng u l n s) ≤
      List.countP p (fill_chars rng length u l n s) := by
  simp only [fill_chars]
  split
  · rw [List.countP_append]
    exact Nat.le_add_right _ _
  · exact Nat.le_refl _

lemma countP_generate_eq_fill (rng : RandomSource) (length : Int) (u l n s : Bool)
    (p : Char → Bool) :
    List.countP p (generate_password rng length u l n s) =
      List.countP p (fill_chars rng length u l n s) :=
  (rng.shuffle_perm _).countP_eq p

/-- C2: whenever a character class is enabled, the output of
`generate_password` contains at least the reserved minimum number of
characters of that class's alphabet: at least 2 from `allowed_specials`
when `use_special`, at least 4 uppercase when `use_uppercase`, at least 4
lowercase when `use_lowercase`, and at least 2 digits when `use_numbers`. -/
theorem generate_password_reserved_minimums (rng : RandomSource) (length : Int)
    (use_uppercase use_lowercase use_numbers use_special : Bool) :
    (use_special = true →
      2 ≤ List.countP (fun c => decide (c ∈ allowed_specials))
            (generate_password rng length
              use_uppercase use_lowercase use_numbers use_special)) ∧
    (use_uppercase = true →
      4 ≤ List.countP (fun c => decide (c ∈ ascii_uppercase))
            (generate_password rng length
              use_uppercase use_lowercase use_numbers use_special)) ∧
    (use_lowercase = true →
      4 ≤ List.countP (fun c => decide (c ∈ ascii_lowercase))
            (generate_password rng length
              use_uppercase use_lowercase use_numbers use_special)) ∧
    (use_numbers = true →
      2 ≤ List.countP (fun c => decide (c ∈ digits))
            (generate_password rng length
              use_uppercase use_lowercase use_numbers use_special)) := by
  refine ⟨fun h => ?_, fun h => ?_, fun h => ?_, fun h => ?_⟩ <;>
    rw [countP_generate_eq_fill] <;>
    refine le_trans ?_ (countP_reserved_le_fill rng length
      use_uppercase use_lowercase use_numbers use_special _) <;>
    subst h <;>
    simp only [reserved_chars, if_true, List.countP_append]
  · have hc := countP_choices_self rng allowed_specials 2 allowed_specials_ne_nil
    omega
  · have hc := countP_choices_self rng ascii_uppercase 4 ascii_uppercase_ne_nil
    omega
  · have hc := countP_choices_self rng ascii_lowercase 4 ascii_lowercase_ne_nil
    omega
  · have hc := countP_choices_self rng digits 2 digits_ne_nil
    omega

/-- Witness for C2 at a concrete input: the deterministic source, length
16, all classes enabled. -/
theorem generate_password_reserved_minimums_witness :
    2 ≤ List.countP (fun c => decide (c ∈ allowed_specials))
          (generate_password defaultSource 16 true true true true) ∧
    4 ≤ List.countP (fun c => decide (c ∈ ascii_uppercase))
          (generate_password defaultSource 16 true true true true) ∧
    4 ≤ List.countP (fun c => decide (c ∈ ascii_lowercase))
          (generate_password defaultSource 16 true true true true) ∧
    2 ≤ List.countP (fun c => decide (c ∈ digits))
          (generate_password defaultSource 16 true true true true) :=
  ⟨(generate_password_reserved_minimums defaultSource 16 true true true true).1 rfl,
   (generate_password_reserved_minimums defaultSource 16 true true true true).2.1 rfl,
   (generate_password_reserved_minimums defaultSource 16 true true true true).2.2.1 rfl,
   (generate_password_reserved_minimums defaultSource 16 true true true true).2.2.2 rfl⟩

/-- C4: with every class flag disabled, `generate_password` does not fail
but falls back to the lowercase alphabet: every character of the result is
a lowercase ASCII letter. -/
theorem generate_password_all_disabled_lowercase (rng : RandomSource) (length : Int) :
    ∀ c ∈ generate_password rng length false false false false,
      c ∈ ascii_lowercase := by
  intro c hc
  have hc2 : c ∈ fill_chars rng length false false false false :=
    ((rng.shuffle_perm _).mem_iff).mp hc
  have hres : reserved_chars rng false false false false = [] := by
    simp [reserved_chars]
  have hpool : character_pool false false false false = ascii_lowercase := by decide
  have hE := enforced_length_ge length
  simp only [fill_chars, hres, hpool, List.length_nil] at hc2
  rw [if_pos (by omega)] at hc2
  simp only [List.nil_append] at hc2
  exact rng.choices_mem ascii_lowercase _ ascii_lowercase_ne_nil c hc2

/-- Witness for C4 at a concrete input: the deterministic source draws
only lowercase letters when all flags are off. -/
theorem generate_password_all_disabled_lowercase_witness :
    ('a' ∈ generate_password defaultSource 12 false false false false) ∧
    'a' ∈ ascii_lowercase :=
  ⟨by decide,
   generate_password_all_disabled_lowercase defaultSource 12 'a' (by decide)⟩

/-- C5: the output of `generate_from_template` always has exactly the
length of the input pattern; in particular pattern `"UULLDDSS"` (length 8)
yields an output of length 8. -/
theorem generate_from_template_length_eq :
    (∀ (rng : RandomSource) (template : List Char),
      (generate_from_template rng template).length = template.length) ∧
    (∀ rng : RandomSource,
      (generate_from_template rng ("UULLDDSS".toList)).length = 8) := by
  constructor
  · intro rng template
    simp [generate_from_template]
  · intro rng
    simp [generate_from_template]

/-- C9: on a pattern with no directive characters (none of U, L, D, S, X,
i.e. `pattern_map` is `none` on every character), `generate_from_template`
is the identity. -/
theorem generate_from_template_literal_identity (rng : RandomSource)
    (template : List Char) (h : ∀ c ∈ template, pattern_map c = none) :
    generate_from_template rng template = template := by
  induction template with
  | nil => rfl
  | cons x xs ih =>
      have hx := h x (by simp)
      have hxs : ∀ c ∈ xs, pattern_map c = none := fun c hc => h c (by simp [hc])
      simp only [generate_from_template, List.map_cons, hx]
      exact congrArg (x :: ·) (ih hxs)

/-- Witness for C9 at the concrete pattern `"ABC-123"`. -/
theorem generate_from_template_literal_identity_witness :
    generate_from_template defaultSource ("ABC-123".toList) = "ABC-123".toList :=
  generate_from_template_literal_identity defaultSource _ (by decide)

/-- C6: `is_valid_template` returns false on patterns shorter than 12;
on patterns of length at least 12 it returns true exactly when the count
of `X` directives is at least 4 minus the number of distinct classes among
U, L, D, S present; `"UUUU"` is invalid; and a 12-character pattern
containing each of U, L, D, S is valid. -/
theorem is_valid_template_spec :
    (∀ template : List Char, template.length < 12 →
      is_valid_template template = false) ∧
    (∀ template : List Char, 12 ≤ template.length →
      (is_valid_template template = true ↔
        4 - ((if template.contains 'U' then 1 else 0) +
             (if template.contains 'L' then 1 else 0) +
             (if template.contains 'D' then 1 else 0) +
             (if template.contains 'S' then 1 else 0)) ≤ template.count 'X')) ∧
    (is_valid_template ("UUUU".toList) = false) ∧
    (∀ template : List Char, template.length = 12 →
      'U' ∈ template → 'L' ∈ template → 'D' ∈ template → 'S' ∈ template →
      is_valid_template template = true) := by
  refine ⟨?_, ?_, by decide, ?_⟩
  · intro template h
    unfold is_valid_template
    rw [if_pos h]
  · intro template h
    unfold is_valid_template
    rw [if_neg (by omega)]
    simp only [decide_eq_true_eq]
  · intro template hlen hU hL hD hS
    unfold is_valid_template
    rw [if_neg (by omega)]
    have hU' : template.contains 'U' = true := by
      simpa [List.contains] using hU
    have hL' : template.contains 'L' = true := by
      simpa [List.contains] using hL
    have hD' : template.contains 'D' = true := by
      simpa [List.contains] using hD
    have hS' : template.contains 'S' = true := by
      simpa [List.contains] using hS
    simp only [hU', hL', hD', hS', if_true, decide_eq_true_eq]
    simp [hU, hL, hD, hS]

/-- Witness for C6 at a concrete 12-character pattern containing each of
U, L, D, S. -/
theorem is_valid_template_spec_witness :
    is_valid_template ("ULDSULDSULDS".toList) = true :=
  is_valid_template_spec.2.2.2 ("ULDSULDSULDS".toList)
    (by decide) (by decide) (by decide) (by decide) (by decide)

/-- C8: the Composer's special alphabet is exactly the 9 symbols
`!@#$%&_-?`, and it is a strict subset of the Evaluator's recognized
special-character set, which consists exactly of the Composer's alphabet
together with the 18 further characters `^*()+=[]\x7b\x7d|;:,.<>/` and
nothing else. -/
theorem special_alphabet_asymmetry :
    (allowed_specials = "!@#$%&_-?".toList ∧ allowed_specials.length = 9) ∧
    (∀ c ∈ allowed_specials, c ∈ evaluator_specials) ∧
    (∃ c, c ∈ evaluator_specials ∧ c ∉ allowed_specials) ∧
    (∀ c : Char, c ∈ evaluator_specials ↔
      c ∈ allowed_specials ∨ c ∈ ("^*()+=[]\x7b\x7d|;:,.<>/".toList)) := by
  refine ⟨⟨rfl, by decide⟩, by decide, ⟨'^', by decide, by decide⟩, ?_⟩
  intro c
  have hp : List.Perm evaluator_specials
      (allowed_specials ++ "^*()+=[]\x7b\x7d|;:,.<>/".toList) := by decide
  rw [hp.mem_iff, List.mem_append]

/-- Witness for C8 at a concrete character of the Composer's alphabet. -/
theorem special_alphabet_asymmetry_witness :
    ('!' ∈ allowed_specials) ∧ '!' ∈ evaluator_specials :=
  ⟨by decide, special_alphabet_asymmetry.2.1 '!' (by decide)⟩

/-- C1: contrary to the claim, `evaluate_password_strength` has no guard
for `length == 0`: on the empty string it reaches the diversity
computation `unique_chars / length` with `length == 0` and raises
`ZeroDivisionError` (modeled as `none`) instead of returning the
length-only score 15. -/
theorem evaluate_empty_raises : evaluate_password_strength [] = none := by
  decide

/-- C7: on twelve lowercase a's the Evaluator returns total score 41
(length 30, classes 10 for lowercase only, diversity `1 * 20 / 12` floored
to 1) with label "Weak", and the feedback includes the four advisory
strings of the claim. -/
theorem evaluate_twelve_lowercase_a :
    ∃ feedback : List String,
      evaluate_password_strength ("aaaaaaaaaaaa".toList) =
        some (41, "Weak", feedback) ∧
      "Add uppercase letters" ∈ feedback ∧
      "Add numbers" ∈ feedback ∧
      "Add special characters" ∈ feedback ∧
      "Add more variety of characters" ∈ feedback := by
  refine ⟨["Acceptable length", "Add uppercase letters", "Add numbers",
    "Add special characters", "Add more variety of characters"],
    by decide, by decide, by decide, by decide, by decide⟩

end GenR8
